import Mathlib

/-!
Shallow embedding of the zep-mcp-server tool-call dispatcher
(source file src/index.ts, the CallToolRequestSchema handler).

The remote Zep Cloud client is modelled as a record of pure operations
returning Except values: an Except.error models a thrown remote error,
an Except.ok models a successful response.  Each handler is embedded as
a function that, besides its result, emits the ordered trace of remote
calls it dispatched (with the exact arguments sent), so that claims
about which calls are made, in which order, and with which identity can
be stated.  JavaScript-specific behaviour is modelled explicitly:
undefined values are Option.none, falsy-or defaulting of strings treats
the empty string as falsy, template-literal interpolation of undefined
prints the text undefined, and object spread followed by a fixed key is
modelled by spreadSet.
-/

/-- Interpolation of a possibly-undefined string value inside a template
literal: undefined prints as the literal text undefined. -/
def jsStr : Option String → String
  | some s => s
  | none => "undefined"

/-- JavaScript falsy-or on a possibly-undefined string: the default is
used when the value is undefined or the empty string. -/
def jsOr : Option String → String → String
  | some s, d => if s = "" then d else s
  | none, d => d

/-- JavaScript falsy-or on a plain string: the default is used when the
string is empty. -/
def jsOrS (s d : String) : String :=
  if s = "" then d else s

/-- JavaScript truthiness of a possibly-undefined string. -/
def jsTruthy : Option String → Bool
  | some s => !(s = "")
  | none => false

/-- Array.prototype.join with a separator, as in the source formatting
code: the empty array joins to the empty string. -/
def joinSep (sep : String) : List String → String
  | [] => ""
  | [x] => x
  | x :: y :: xs => x ++ sep ++ joinSep sep (y :: xs)

/-- Concatenation of a list of strings, modelling repeated += onto an
accumulator string. -/
def concatAll : List String → String
  | [] => ""
  | x :: xs => x ++ concatAll xs

/-- Map with the 0-based index, modelling Array.prototype.map with the
(element, index) callback. -/
def numbered {α : Type} (f : Nat → α → String) (l : List α) : List String :=
  l.enum.map (fun p => f p.1 p.2)

/-- Lookup of a key in a flat JavaScript object modelled as an ordered
key-value list: the first matching pair wins. -/
def olookup : List (String × String) → String → Option String
  | [], _ => none
  | p :: ps, k => if p.1 = k then some p.2 else olookup ps k

/-- Presence of a key among the keys of a flat object. -/
def hasKey : List (String × String) → String → Bool
  | [], _ => false
  | p :: ps, k => p.1 = k || hasKey ps k

/-- Object spread followed by one fixed key, modelling the expression
that spreads metadata and then sets the key stored_at: if the key is
already present its value is overwritten in place, otherwise the pair is
appended at the end. -/
def spreadSet (m : List (String × String)) (k v : String) : List (String × String) :=
  if hasKey m k then
    m.map (fun p => if p.1 = k then (k, v) else p)
  else
    m ++ [(k, v)]

/-- JSON.stringify of a flat string-valued object, used when a message
carries non-empty metadata. -/
def jsonStringifyObj (m : List (String × String)) : String :=
  "\x7b" ++ joinSep "," (m.map (fun p => "\"" ++ p.1 ++ "\":\"" ++ p.2 ++ "\"")) ++ "\x7d"

/-- A Zep thread message: role and content may be absent on retrieved
messages, metadata is an optional flat object. -/
structure Message where
  role : Option String
  content : Option String
  metadata : Option (List (String × String))
deriving DecidableEq, Repr

/-- Response of zep.thread.get: an object whose messages field may be
absent. -/
structure ThreadResponse where
  messages : Option (List Message)
deriving DecidableEq, Repr

/-- A knowledge-graph node as consumed by the formatting code. -/
structure GraphNode where
  name : Option String
  labels : Option (List String)
  uuid : Option String
  summary : Option String
deriving DecidableEq, Repr

/-- A knowledge-graph edge as consumed by the formatting code. -/
structure GraphEdge where
  fact : Option String
  name : Option String
  sourceNodeName : Option String
  targetNodeName : Option String
deriving DecidableEq, Repr

/-- One episode as consumed by the excerpt formatting code. -/
structure Episode where
  content : Option String
deriving DecidableEq, Repr

/-- Response of zep.graph.node.getEpisodes: the episodes field may be
absent. -/
structure EpisodesResponse where
  episodes : Option (List Episode)
deriving DecidableEq, Repr

/-- Response of zep.graph.search: the edges field may be absent. -/
structure SearchResults where
  edges : Option (List GraphEdge)
deriving DecidableEq, Repr

/-- Response of zep.thread.getUserContext: the context field may be
absent. -/
structure ContextResponse where
  context : Option String
deriving DecidableEq, Repr

/-- The requestOptions object built by the zep_get_memory handler before
calling zep.thread.get: each field is present only when it was set. -/
structure RequestOptions where
  lastn : Option Nat
  limit : Option Nat
  cursor : Option Nat
deriving DecidableEq, Repr

/-- A remote error, modelling a thrown JavaScript error value: message
may be absent, and serialized models JSON.stringify of the value. -/
structure ZepError where
  message : Option String
  serialized : String
deriving DecidableEq, Repr

/-- Text of an error as produced by the catch-all: error.message when it
is truthy, otherwise JSON.stringify of the error. -/
def errorText (e : ZepError) : String :=
  match e.message with
  | some m => if m = "" then e.serialized else m
  | none => e.serialized

/-- A JavaScript Error thrown with new Error(msg): its message is msg
and JSON.stringify of an Error object is the empty JSON object. -/
def jsError (msg : String) : ZepError :=
  { message := some msg, serialized := "\x7b\x7d" }

/-- One item of the content array of a tool result. -/
structure ContentItem where
  type : String
  text : String
deriving DecidableEq, Repr

/-- The result of a tool call: a content array and the error flag (the
flag is absent, hence false, on success results). -/
structure ToolCallResult where
  content : List ContentItem
  isError : Bool
deriving DecidableEq, Repr

/-- Successful tool result carrying a single text item. -/
def okText (t : String) : ToolCallResult :=
  { content := [{ type := "text", text := t }], isError := false }

/-- Error tool result produced by the catch-all handler boundary. -/
def errResult (e : ZepError) : ToolCallResult :=
  { content := [{ type := "text", text := "Error: " ++ errorText e }], isError := true }

/-- The argument object of a tool call after destructuring: every field
the handlers read, absent fields being undefined. -/
structure Args where
  session_id : Option String
  content : Option String
  metadata : Option (List (String × String))
  query : Option String
  limit : Option Nat
  lastn : Option Nat
  cursor : Option Nat
  role_filter : Option String
  node_uuid : Option String
  mode : Option String
deriving DecidableEq, Repr

/-- The argument object with every field absent. -/
def emptyArgs : Args :=
  { session_id := none, content := none, metadata := none, query := none,
    limit := none, lastn := none, cursor := none, role_filter := none,
    node_uuid := none, mode := none }

/-- One dispatched remote call, recording the operation and the exact
arguments sent to the remote client. -/
inductive RemoteCall where
  | userAdd (userId email firstName lastName : String)
  | threadCreate (threadId : Option String) (userId : String)
  | addMessages (threadId : Option String) (messages : List Message)
  | threadGet (threadId : Option String) (opts : RequestOptions)
  | graphSearch (userId : String) (query : Option String) (limit : Nat)
  | nodeGetByUserId (userId : String) (limit : Nat)
  | edgeGetByUserId (userId : String) (limit : Nat)
  | nodeGet (uuid : Option String)
  | nodeGetEdges (uuid : Option String)
  | nodeGetEpisodes (uuid : Option String)
  | getUserContext (threadId : Option String) (mode : String)
deriving DecidableEq, Repr

/-- The ordered trace of remote calls dispatched while handling one tool
call. -/
abbrev Trace := List RemoteCall

/-- The remote Zep Cloud client: each operation the handlers use, as a
pure function returning Except (error models a thrown remote fault). -/
structure ZepClient where
  userAdd : String → String → String → String → Except ZepError Unit
  threadCreate : Option String → String → Except ZepError Unit
  threadAddMessages : Option String → List Message → Except ZepError Unit
  threadGet : Option String → RequestOptions → Except ZepError ThreadResponse
  graphSearch : String → Option String → Nat → Except ZepError SearchResults
  nodeGetByUserId : String → Nat → Except ZepError (List GraphNode)
  edgeGetByUserId : String → Nat → Except ZepError (List GraphEdge)
  nodeGet : Option String → Except ZepError GraphNode
  nodeGetEdges : Option String → Except ZepError (List GraphEdge)
  nodeGetEpisodes : Option String → Except ZepError EpisodesResponse
  threadGetUserContext : Option String → String → Except ZepError ContextResponse

/-- The two messages appended by zep_store_memory: the synthetic user
priming message, then the assistant message carrying the content with
the stored_at timestamp merged into the caller metadata. -/
def storeMessages (c : Option String) (meta : List (String × String)) (now : String) :
    List Message :=
  [ { role := some "user", content := some "Store this information", metadata := none },
    { role := some "assistant", content := c,
      metadata := some (spreadSet meta "stored_at" now) } ]

/-- Handler of zep_store_memory: best-effort user add and thread create
(results deliberately discarded), then addMessages; now models the
current ISO timestamp. -/
def runStoreMemory (zep : ZepClient) (now : String) (a : Args) :
    Except ZepError ToolCallResult × Trace :=
  let meta := a.metadata.getD []
  let _ := zep.userAdd "default_user" "default@example.com" "Claude" "Code"
  let _ := zep.threadCreate a.session_id "default_user"
  let msgs := storeMessages a.content meta now
  let tr : Trace :=
    [ RemoteCall.userAdd "default_user" "default@example.com" "Claude" "Code",
      RemoteCall.threadCreate a.session_id "default_user",
      RemoteCall.addMessages a.session_id msgs ]
  match zep.threadAddMessages a.session_id msgs with
  | Except.error e => (Except.error e, tr)
  | Except.ok _ =>
      (Except.ok (okText ("✓ Stored in thread \"" ++ jsStr a.session_id ++ "\"")), tr)

/-- Output text of zep_search_memory for a successful search response. -/
def searchText (results : SearchResults) : String :=
  jsOrS (joinSep "\n\n"
    (numbered (fun i e => toString (i + 1) ++ ". " ++ jsOr e.fact (jsOr e.name "N/A"))
      (results.edges.getD [])))
    "No results found"

/-- Handler of zep_search_memory: one graph search against the fixed
identity default_user; the session_id argument is never read. -/
def runSearchMemory (zep : ZepClient) (a : Args) :
    Except ZepError ToolCallResult × Trace :=
  let lim := a.limit.getD 10
  let tr : Trace := [RemoteCall.graphSearch "default_user" a.query lim]
  match zep.graphSearch "default_user" a.query lim with
  | Except.error e => (Except.error e, tr)
  | Except.ok results => (Except.ok (okText (searchText results)), tr)

/-- The requestOptions object built by zep_get_memory: lastn, when
present, wins; otherwise limit and cursor are forwarded when present. -/
def optsOf (a : Args) : RequestOptions :=
  match a.lastn with
  | some n => { lastn := some n, limit := none, cursor := none }
  | none => { lastn := none, limit := a.limit, cursor := a.cursor }

/-- The cursor suffix of the limit banner: present only when cursor is
truthy (zero is falsy in JavaScript). -/
def cursorSuffix : Option Nat → String
  | some c => if c = 0 then "" else " (cursor: " ++ toString c ++ ")"
  | none => ""

/-- The pagination banner prefixed to the zep_get_memory output. -/
def bannerOf (a : Args) : String :=
  match a.lastn with
  | some n => "Showing last " ++ toString n ++ " messages:\n\n"
  | none =>
    match a.limit with
    | some l => "Showing up to " ++ toString l ++ " messages" ++ cursorSuffix a.cursor ++ ":\n\n"
    | none => ""

/-- Formatting of one retrieved message: index starting at 1, role tag
when the role is truthy, content, then a serialized metadata line when
metadata is present and non-empty. -/
def messageLine (i : Nat) (m : Message) : String :=
  let role := if jsTruthy m.role then "[" ++ jsStr m.role ++ "]" else ""
  let md :=
    match m.metadata with
    | some l => if l.length > 0 then "\n   " ++ jsonStringifyObj l else ""
    | none => ""
  toString (i + 1) ++ ". " ++ role ++ " " ++ jsStr m.content ++ md

/-- Client-side role filter of zep_get_memory: applied only when the
role_filter argument is truthy, keeping messages whose role strictly
equals it. -/
def applyRoleFilter (rf : Option String) (ms : List Message) : List Message :=
  if jsTruthy rf then ms.filter (fun m => m.role == rf) else ms

/-- Body of the zep_get_memory output: the formatted filtered messages,
or the no-memories sentinel when the formatted text is empty. -/
def getMemoryBody (rf : Option String) (resp : ThreadResponse) : String :=
  let messages := applyRoleFilter rf (resp.messages.getD [])
  jsOrS (joinSep "\n\n" (numbered messageLine messages)) "No memories found in this thread"

/-- Handler of zep_get_memory: one thread retrieval with the computed
request options, then client-side role filtering and formatting. -/
def runGetMemory (zep : ZepClient) (a : Args) :
    Except ZepError ToolCallResult × Trace :=
  let opts := optsOf a
  let tr : Trace := [RemoteCall.threadGet a.session_id opts]
  match zep.threadGet a.session_id opts with
  | Except.error e => (Except.error e, tr)
  | Except.ok resp =>
      (Except.ok (okText (bannerOf a ++ getMemoryBody a.role_filter resp)), tr)

/-- Output text of zep_get_graph_nodes for a successful enumeration. -/
def graphNodesText (nodes : List GraphNode) : String :=
  jsOrS (joinSep "\n\n"
    (numbered (fun i n =>
      toString (i + 1) ++ ". **" ++ jsOr n.name "Unnamed" ++ "** (" ++
        jsOr (n.labels.map (joinSep ", ")) "Unknown" ++ ")\n   UUID: " ++
        jsOr n.uuid "N/A") nodes))
    "No nodes found in the knowledge graph"

/-- Handler of zep_get_graph_nodes: one node enumeration against the
fixed identity default_user. -/
def runGraphNodes (zep : ZepClient) (a : Args) :
    Except ZepError ToolCallResult × Trace :=
  let lim := a.limit.getD 50
  let tr : Trace := [RemoteCall.nodeGetByUserId "default_user" lim]
  match zep.nodeGetByUserId "default_user" lim with
  | Except.error e => (Except.error e, tr)
  | Except.ok nodes => (Except.ok (okText (graphNodesText nodes)), tr)

/-- Output text of zep_get_graph_edges for a successful enumeration. -/
def graphEdgesText (edges : List GraphEdge) : String :=
  jsOrS (joinSep "\n\n"
    (numbered (fun i e =>
      toString (i + 1) ++ ". " ++ jsOr e.sourceNodeName "Unknown" ++ " → " ++
        jsOr e.targetNodeName "Unknown" ++ "\n   Fact: " ++ jsOr e.fact "No fact" ++
        "\n   Name: " ++ jsOr e.name "Unnamed") edges))
    "No edges found in the knowledge graph"

/-- Handler of zep_get_graph_edges: one edge enumeration against the
fixed identity default_user. -/
def runGraphEdges (zep : ZepClient) (a : Args) :
    Except ZepError ToolCallResult × Trace :=
  let lim := a.limit.getD 50
  let tr : Trace := [RemoteCall.edgeGetByUserId "default_user" lim]
  match zep.edgeGetByUserId "default_user" lim with
  | Except.error e => (Except.error e, tr)
  | Except.ok edges => (Except.ok (okText (graphEdgesText edges)), tr)

/-- Displayed excerpt of one episode: substring of the first 100
characters, the placeholder when the result is falsy. -/
def excerptText (ep : Episode) : String :=
  match ep.content with
  | some s => jsOrS (String.mk (s.data.take 100)) "No content"
  | none => "No content"

/-- The relationships section of the node-details output. -/
def relationshipsSection (edges : List GraphEdge) : String :=
  if edges.length > 0 then
    "## Relationships (" ++ toString edges.length ++ ")\n\n" ++
      concatAll (numbered (fun i e =>
        toString (i + 1) ++ ". → " ++ jsOr e.targetNodeName "Unknown" ++ ": " ++
          jsOr e.fact "No fact" ++ "\n") edges) ++ "\n"
  else ""

/-- The episodes section of the node-details output: the count uses the
full list, the entries are the first five episodes only. -/
def episodesSection (eps : EpisodesResponse) : String :=
  match eps.episodes with
  | some l =>
      if l.length > 0 then
        "## Mentioned In (" ++ toString l.length ++ " episodes)\n\n" ++
          concatAll (numbered (fun i ep =>
            toString (i + 1) ++ ". " ++ excerptText ep ++ "...\n") (l.take 5))
      else ""
  | none => ""

/-- The full node-details output text. -/
def nodeDetailsText (node : GraphNode) (edges : List GraphEdge) (eps : EpisodesResponse) :
    String :=
  "# Node: " ++ jsOr node.name "Unnamed" ++ "\n\n" ++
    "**Labels:** " ++ jsOr (node.labels.map (joinSep ", ")) "Unknown" ++ "\n" ++
    "**UUID:** " ++ jsStr node.uuid ++ "\n" ++
    "**Summary:** " ++ jsOr node.summary "No summary" ++ "\n\n" ++
    relationshipsSection edges ++ episodesSection eps

/-- Handler of zep_get_node_details: three sequential remote calls, each
awaited before the next begins, so a failure stops the sequence. -/
def runNodeDetails (zep : ZepClient) (a : Args) :
    Except ZepError ToolCallResult × Trace :=
  let t1 : Trace := [RemoteCall.nodeGet a.node_uuid]
  match zep.nodeGet a.node_uuid with
  | Except.error e => (Except.error e, t1)
  | Except.ok node =>
    let t2 := t1 ++ [RemoteCall.nodeGetEdges a.node_uuid]
    match zep.nodeGetEdges a.node_uuid with
    | Except.error e => (Except.error e, t2)
    | Except.ok edges =>
      let t3 := t2 ++ [RemoteCall.nodeGetEpisodes a.node_uuid]
      match zep.nodeGetEpisodes a.node_uuid with
      | Except.error e => (Except.error e, t3)
      | Except.ok eps =>
          (Except.ok (okText (nodeDetailsText node edges eps)), t3)

/-- Output text of zep_get_thread_context for a successful retrieval. -/
def threadContextText (sid : Option String) (ctx : ContextResponse) : String :=
  "# Relevant Context for Thread: " ++ jsStr sid ++ "\n\n" ++
    jsOr ctx.context "No relevant context found from past conversations."

/-- Handler of zep_get_thread_context: one context retrieval with the
destructuring default summary for the mode argument. -/
def runThreadContext (zep : ZepClient) (a : Args) :
    Except ZepError ToolCallResult × Trace :=
  let mode := a.mode.getD "summary"
  let tr : Trace := [RemoteCall.getUserContext a.session_id mode]
  match zep.threadGetUserContext a.session_id mode with
  | Except.error e => (Except.error e, tr)
  | Except.ok ctx => (Except.ok (okText (threadContextText a.session_id ctx)), tr)

/-- The tool names of the catalog, in declaration order. -/
def toolNames : List String :=
  [ "zep_store_memory", "zep_search_memory", "zep_get_memory",
    "zep_get_graph_nodes", "zep_get_graph_edges", "zep_get_node_details",
    "zep_get_thread_context" ]

/-- The required parameter names each tool declares in its input schema. -/
def requiredParams (name : String) : List String :=
  if name = "zep_store_memory" then ["session_id", "content"]
  else if name = "zep_search_memory" then ["session_id", "query"]
  else if name = "zep_get_memory" then ["session_id"]
  else if name = "zep_get_node_details" then ["node_uuid"]
  else if name = "zep_get_thread_context" then ["session_id"]
  else []

/-- Presence of a named argument in the argument object. -/
def hasArg (a : Args) (p : String) : Bool :=
  if p = "session_id" then a.session_id.isSome
  else if p = "content" then a.content.isSome
  else if p = "query" then a.query.isSome
  else if p = "node_uuid" then a.node_uuid.isSome
  else false

/-- The complete call-tool handler: dispatch on the tool name, unknown
names throw, and every thrown error is converted at the boundary into an
error result; the trace of dispatched remote calls is returned alongside. -/
def handleCallTool (zep : ZepClient) (now : String) (name : String) (a : Args) :
    ToolCallResult × Trace :=
  let (r, tr) :=
    if name = "zep_store_memory" then runStoreMemory zep now a
    else if name = "zep_search_memory" then runSearchMemory zep a
    else if name = "zep_get_memory" then runGetMemory zep a
    else if name = "zep_get_graph_nodes" then runGraphNodes zep a
    else if name = "zep_get_graph_edges" then runGraphEdges zep a
    else if name = "zep_get_node_details" then runNodeDetails zep a
    else if name = "zep_get_thread_context" then runThreadContext zep a
    else (Except.error (jsError ("Unknown tool: " ++ name)), ([] : Trace))
  match r with
  | Except.ok res => (res, tr)
  | Except.error e => (errResult e, tr)

/-- Substring containment of strings, stated by decomposition. -/
def ContainsStr (s sub : String) : Prop :=
  ∃ p q, s = p ++ sub ++ q

/-- A mock remote client on which every operation succeeds with empty
canned data. -/
def mockOkClient : ZepClient where
  userAdd := fun _ _ _ _ => Except.ok ()
  threadCreate := fun _ _ => Except.ok ()
  threadAddMessages := fun _ _ => Except.ok ()
  threadGet := fun _ _ => Except.ok { messages := some [] }
  graphSearch := fun _ _ _ => Except.ok { edges := some [] }
  nodeGetByUserId := fun _ _ => Except.ok []
  edgeGetByUserId := fun _ _ => Except.ok []
  nodeGet := fun _ => Except.ok { name := none, labels := none, uuid := none, summary := none }
  nodeGetEdges := fun _ => Except.ok []
  nodeGetEpisodes := fun _ => Except.ok { episodes := some [] }
  threadGetUserContext := fun _ _ => Except.ok { context := none }

/-- A sample remote error carrying a message. -/
def sampleError : ZepError :=
  { message := some "boom", serialized := "\x7b\x7d" }

/-- A mock client whose single-node fetch fails, the rest succeeding. -/
def mockNodeFailClient : ZepClient :=
  { mockOkClient with nodeGet := fun _ => Except.error sampleError }

/-- A mock client whose edge fetch for a node fails, the rest
succeeding. -/
def mockEdgesFailClient : ZepClient :=
  { mockOkClient with nodeGetEdges := fun _ => Except.error sampleError }

/-- A mock client on which every remote operation fails with the sample
error. -/
def mockAllFailClient : ZepClient where
  userAdd := fun _ _ _ _ => Except.error sampleError
  threadCreate := fun _ _ => Except.error sampleError
  threadAddMessages := fun _ _ => Except.error sampleError
  threadGet := fun _ _ => Except.error sampleError
  graphSearch := fun _ _ _ => Except.error sampleError
  nodeGetByUserId := fun _ _ => Except.error sampleError
  edgeGetByUserId := fun _ _ => Except.error sampleError
  nodeGet := fun _ => Except.error sampleError
  nodeGetEdges := fun _ => Except.error sampleError
  nodeGetEpisodes := fun _ => Except.error sampleError
  threadGetUserContext := fun _ _ => Except.error sampleError

/-- A mixed-role message list used to exercise the role filter. -/
def mixedMessages : List Message :=
  [ { role := some "user", content := some "question one", metadata := none },
    { role := some "assistant", content := some "answer one", metadata := none },
    { role := some "system", content := some "directive", metadata := none },
    { role := some "assistant", content := some "answer two", metadata := none } ]

/-- A mock client returning the mixed-role message list on thread
retrieval, for any request options. -/
def mockMixedClient : ZepClient :=
  { mockOkClient with threadGet := fun _ _ => Except.ok { messages := some mixedMessages } }

/-- A stub client that returns on retrieval exactly the two messages the
store handler appends for content hello with empty metadata at time T0. -/
def mockRoundtripClient : ZepClient :=
  { mockOkClient with
    threadGet := fun _ _ => Except.ok { messages := some (storeMessages (some "hello") [] "T0") } }

/-- Seven episodes, the first longer than 100 characters. -/
def longEpisodes : List Episode :=
  { content := some (String.mk (List.replicate 150 'x')) } ::
    (List.range 6).map (fun i => { content := some ("short " ++ toString i) })

/-- A sample graph node with full display fields. -/
def sampleNode : GraphNode :=
  { name := some "Alice", labels := some ["Person"], uuid := some "u-1",
    summary := some "a person" }

/-- A mock client returning one node, no edges and the seven episodes. -/
def mockEpisodesClient : ZepClient :=
  { mockOkClient with
    nodeGet := fun _ => Except.ok sampleNode,
    nodeGetEpisodes := fun _ => Except.ok { episodes := some longEpisodes } }

/-- Concrete arguments of a store call on session global. -/
def storeArgs : Args :=
  { emptyArgs with session_id := some "global", content := some "hello" }

/-- Concrete arguments of a store call carrying metadata that already
holds a stored_at key. -/
def storeArgsMeta : Args :=
  { emptyArgs with
    session_id := some "global",
    content := some "hello",
    metadata := some [("stored_at", "OLD"), ("tag", "x")] }

/-- Concrete arguments of a bare get call on session global. -/
def getArgs : Args :=
  { emptyArgs with session_id := some "global" }

/-- Concrete get arguments selecting the last-n retrieval mode. -/
def lastnArgs : Args :=
  { emptyArgs with session_id := some "global", lastn := some 2 }

/-- Concrete get arguments selecting the limit mode with cursor zero. -/
def limitArgs : Args :=
  { emptyArgs with
    session_id := some "global",
    limit := some 2,
    cursor := some 0 }

/-- Concrete get arguments with an assistant role filter. -/
def roleArgs : Args :=
  { emptyArgs with session_id := some "global", role_filter := some "assistant" }

/-- Concrete store arguments with an explicitly empty metadata object. -/
def roundtripArgs : Args :=
  { emptyArgs with
    session_id := some "global",
    content := some "hello",
    metadata := some [] }

/-!
Helper lemmas: one defining equation per handler of the dispatcher, and
facts about the flat-object operations.
-/

/-- Unfolding of the dispatcher on the zep_store_memory tool name. -/
theorem handleCallTool_store (zep : ZepClient) (now : String) (a : Args) :
    handleCallTool zep now "zep_store_memory" a =
      ((match zep.threadAddMessages a.session_id
            (storeMessages a.content (a.metadata.getD []) now) with
        | Except.ok _ => okText ("✓ Stored in thread \"" ++ jsStr a.session_id ++ "\"")
        | Except.error e => errResult e),
       [RemoteCall.userAdd "default_user" "default@example.com" "Claude" "Code",
        RemoteCall.threadCreate a.session_id "default_user",
        RemoteCall.addMessages a.session_id
          (storeMessages a.content (a.metadata.getD []) now)]) := by
  cases h : zep.threadAddMessages a.session_id
      (storeMessages a.content (a.metadata.getD []) now) <;>
    simp [handleCallTool, runStoreMemory, h]

/-- Unfolding of the dispatcher on the zep_search_memory tool name. -/
theorem handleCallTool_search (zep : ZepClient) (now : String) (a : Args) :
    handleCallTool zep now "zep_search_memory" a =
      ((match zep.graphSearch "default_user" a.query (a.limit.getD 10) with
        | Except.ok r => okText (searchText r)
        | Except.error e => errResult e),
       [RemoteCall.graphSearch "default_user" a.query (a.limit.getD 10)]) := by
  cases h : zep.graphSearch "default_user" a.query (a.limit.getD 10) <;>
    simp [handleCallTool, runSearchMemory, h]

/-- Unfolding of the dispatcher on the zep_get_memory tool name. -/
theorem handleCallTool_getMemory (zep : ZepClient) (now : String) (a : Args) :
    handleCallTool zep now "zep_get_memory" a =
      ((match zep.threadGet a.session_id (optsOf a) with
        | Except.ok resp => okText (bannerOf a ++ getMemoryBody a.role_filter resp)
        | Except.error e => errResult e),
       [RemoteCall.threadGet a.session_id (optsOf a)]) := by
  cases h : zep.threadGet a.session_id (optsOf a) <;>
    simp [handleCallTool, runGetMemory, h]

/-- Unfolding of the dispatcher on the zep_get_graph_nodes tool name. -/
theorem handleCallTool_graphNodes (zep : ZepClient) (now : String) (a : Args) :
    handleCallTool zep now "zep_get_graph_nodes" a =
      ((match zep.nodeGetByUserId "default_user" (a.limit.getD 50) with
        | Except.ok ns => okText (graphNodesText ns)
        | Except.error e => errResult e),
       [RemoteCall.nodeGetByUserId "default_user" (a.limit.getD 50)]) := by
  cases h : zep.nodeGetByUserId "default_user" (a.limit.getD 50) <;>
    simp [handleCallTool, runGraphNodes, h]

/-- Unfolding of the dispatcher on the zep_get_graph_edges tool name. -/
theorem handleCallTool_graphEdges (zep : ZepClient) (now : String) (a : Args) :
    handleCallTool zep now "zep_get_graph_edges" a =
      ((match zep.edgeGetByUserId "default_user" (a.limit.getD 50) with
        | Except.ok es => okText (graphEdgesText es)
        | Except.error e => errResult e),
       [RemoteCall.edgeGetByUserId "default_user" (a.limit.getD 50)]) := by
  cases h : zep.edgeGetByUserId "default_user" (a.limit.getD 50) <;>
    simp [handleCallTool, runGraphEdges, h]

/-- Unfolding of the dispatcher on the zep_get_node_details tool name. -/
theorem handleCallTool_nodeDetails (zep : ZepClient) (now : String) (a : Args) :
    handleCallTool zep now "zep_get_node_details" a =
      (match zep.nodeGet a.node_uuid with
       | Except.error e => (errResult e, [RemoteCall.nodeGet a.node_uuid])
       | Except.ok node =>
         match zep.nodeGetEdges a.node_uuid with
         | Except.error e =>
             (errResult e,
              [RemoteCall.nodeGet a.node_uuid, RemoteCall.nodeGetEdges a.node_uuid])
         | Except.ok edges =>
           match zep.nodeGetEpisodes a.node_uuid with
           | Except.error e =>
               (errResult e,
                [RemoteCall.nodeGet a.node_uuid, RemoteCall.nodeGetEdges a.node_uuid,
                 RemoteCall.nodeGetEpisodes a.node_uuid])
           | Except.ok eps =>
               (okText (nodeDetailsText node edges eps),
                [RemoteCall.nodeGet a.node_uuid, RemoteCall.nodeGetEdges a.node_uuid,
                 RemoteCall.nodeGetEpisodes a.node_uuid])) := by
  cases h1 : zep.nodeGet a.node_uuid <;>
    simp [handleCallTool, runNodeDetails, h1]
  cases h2 : zep.nodeGetEdges a.node_uuid <;> simp [h2]
  cases h3 : zep.nodeGetEpisodes a.node_uuid <;> simp [h3]

/-- Unfolding of the dispatcher on the zep_get_thread_context tool
name. -/
theorem handleCallTool_threadContext (zep : ZepClient) (now : String) (a : Args) :
    handleCallTool zep now "zep_get_thread_context" a =
      ((match zep.threadGetUserContext a.session_id (a.mode.getD "summary") with
        | Except.ok ctx => okText (threadContextText a.session_id ctx)
        | Except.error e => errResult e),
       [RemoteCall.getUserContext a.session_id (a.mode.getD "summary")]) := by
  cases h : zep.threadGetUserContext a.session_id (a.mode.getD "summary") <;>
    simp [handleCallTool, runThreadContext, h]

/-- Replacing a present key in place makes the lookup return the new
value. -/
theorem olookup_replace_self (m : List (String × String)) (k v : String)
    (hc : hasKey m k = true) :
    olookup (m.map (fun p => if p.1 = k then (k, v) else p)) k = some v := by
  induction m with
  | nil => simp [hasKey] at hc
  | cons p ps ih =>
    by_cases h : p.1 = k
    · simp [olookup, h]
    · simp [hasKey, h] at hc
      simp [olookup, h, ih hc]

/-- Appending a fresh key makes the lookup return the new value. -/
theorem olookup_append_single_self (m : List (String × String)) (k v : String)
    (hc : hasKey m k = false) :
    olookup (m ++ [(k, v)]) k = some v := by
  induction m with
  | nil => simp [olookup]
  | cons p ps ih =>
    simp [hasKey] at hc
    simp [olookup, hc.1, ih hc.2]

/-- The spread-then-set object always maps the set key to the new
value. -/
theorem olookup_spreadSet_self (m : List (String × String)) (k v : String) :
    olookup (spreadSet m k v) k = some v := by
  unfold spreadSet
  by_cases hc : hasKey m k
  · rw [if_pos hc]
    exact olookup_replace_self m k v hc
  · rw [if_neg hc]
    exact olookup_append_single_self m k v (by simpa using hc)

/-- Replacing a key in place leaves the lookup of every other key
unchanged. -/
theorem olookup_replace_other (m : List (String × String)) (k v k2 : String)
    (h : k2 ≠ k) :
    olookup (m.map (fun p => if p.1 = k then (k, v) else p)) k2 = olookup m k2 := by
  induction m with
  | nil => rfl
  | cons p ps ih =>
    by_cases hp : p.1 = k
    · have hpk : p.1 ≠ k2 := by rw [hp]; exact Ne.symm h
      simp [olookup, hp, Ne.symm h, hpk, ih]
    · by_cases hq : p.1 = k2
      · simp [olookup, hp, hq, h]
      · simp [olookup, hp, hq, ih]

/-- Appending a fresh key leaves the lookup of every other key
unchanged. -/
theorem olookup_append_single_other (m : List (String × String)) (k v k2 : String)
    (h : k2 ≠ k) :
    olookup (m ++ [(k, v)]) k2 = olookup m k2 := by
  induction m with
  | nil => simp [olookup, Ne.symm h]
  | cons p ps ih =>
    by_cases hq : p.1 = k2
    · simp [olookup, hq]
    · simp [olookup, hq, ih]

/-- The spread-then-set object preserves the lookup of every key other
than the set one. -/
theorem olookup_spreadSet_other (m : List (String × String)) (k v k2 : String)
    (h : k2 ≠ k) :
    olookup (spreadSet m k v) k2 = olookup m k2 := by
  unfold spreadSet
  by_cases hc : hasKey m k
  · rw [if_pos hc]
    exact olookup_replace_other m k v k2 h
  · rw [if_neg hc]
    exact olookup_append_single_other m k v k2 h

/-- The spread-then-set object is never empty. -/
theorem spreadSet_length_pos (m : List (String × String)) (k v : String) :
    0 < (spreadSet m k v).length := by
  unfold spreadSet
  by_cases hc : hasKey m k
  · rw [if_pos hc]
    cases m with
    | nil => simp [hasKey] at hc
    | cons p ps => simp
  · rw [if_neg hc]
    simp

/-- The two pagination banners are distinct for every count. -/
theorem showingBanners_ne (n : Nat) :
    ("Showing last " ++ toString n ++ " messages:\n\n" : String) ≠
      "Showing up to " ++ toString n ++ " messages:\n\n" := by
  intro h
  have hl := congrArg String.length h
  simp only [String.length_append] at hl
  have e1 : ("Showing last " : String).length = 13 := rfl
  have e2 : ("Showing up to " : String).length = 14 := rfl
  rw [e1, e2] at hl
  omega

/-!
Claim theorems.
-/

/-- Claim C8: calling a tool name outside the catalog yields a normal
error result whose text contains that name, produced by the catch-all
from the thrown unknown-tool error, and no remote call is dispatched. -/
theorem unknown_tool_error (zep : ZepClient) (now : String) (name : String) (a : Args)
    (h : name ∉ toolNames) :
    handleCallTool zep now name a =
      (errResult (jsError ("Unknown tool: " ++ name)), []) ∧
    (handleCallTool zep now name a).1.isError = true ∧
    (handleCallTool zep now name a).1.content =
      [{ type := "text", text := "Error: " ++ ("Unknown tool: " ++ name) }] ∧
    ContainsStr ("Error: " ++ ("Unknown tool: " ++ name)) name := by
  simp only [toolNames, List.mem_cons, List.not_mem_nil, or_false, not_or] at h
  obtain ⟨h1, h2, h3, h4, h5, h6, h7⟩ := h
  have hne : ("Unknown tool: " ++ name) ≠ "" := by
    intro he
    have hl := congrArg String.length he
    rw [String.length_append] at hl
    have e1 : ("Unknown tool: " : String).length = 14 := rfl
    have e2 : ("" : String).length = 0 := rfl
    rw [e1, e2] at hl
    omega
  have hdisp : handleCallTool zep now name a =
      (errResult (jsError ("Unknown tool: " ++ name)), []) := by
    simp [handleCallTool, h1, h2, h3, h4, h5, h6, h7]
  refine ⟨hdisp, by rw [hdisp]; rfl, ?_, ?_⟩
  · rw [hdisp]
    simp [errResult, errorText, jsError, hne]
  · refine ⟨"Error: Unknown tool: ", "", ?_⟩
    rw [String.append_empty, ← String.append_assoc]
    rfl

/-- Witness for C8 at the concrete unknown name bogus. -/
theorem unknown_tool_error_witness :
    "bogus" ∉ toolNames ∧
    (handleCallTool mockOkClient "T0" "bogus" emptyArgs =
       (errResult (jsError ("Unknown tool: " ++ "bogus")), []) ∧
     (handleCallTool mockOkClient "T0" "bogus" emptyArgs).1.isError = true ∧
     (handleCallTool mockOkClient "T0" "bogus" emptyArgs).1.content =
       [{ type := "text", text := "Error: " ++ ("Unknown tool: " ++ "bogus") }] ∧
     ContainsStr ("Error: " ++ ("Unknown tool: " ++ "bogus")) "bogus") :=
  ⟨by decide, unknown_tool_error mockOkClient "T0" "bogus" emptyArgs (by decide)⟩

/-- Claim C9: the zep_search_memory handler never reads its required
session_id argument, so two calls differing only in session_id are
identical in request and result; the remote search, the store upserts
and the graph enumerations all use the fixed identity default_user. -/
theorem search_fixed_identity (zep : ZepClient) (now : String) (a : Args)
    (s1 s2 : Option String) :
    handleCallTool zep now "zep_search_memory" { a with session_id := s1 } =
      handleCallTool zep now "zep_search_memory" { a with session_id := s2 } ∧
    (handleCallTool zep now "zep_search_memory" a).2 =
      [RemoteCall.graphSearch "default_user" a.query (a.limit.getD 10)] ∧
    (handleCallTool zep now "zep_store_memory" a).2 =
      [RemoteCall.userAdd "default_user" "default@example.com" "Claude" "Code",
       RemoteCall.threadCreate a.session_id "default_user",
       RemoteCall.addMessages a.session_id
         (storeMessages a.content (a.metadata.getD []) now)] ∧
    (handleCallTool zep now "zep_get_graph_nodes" a).2 =
      [RemoteCall.nodeGetByUserId "default_user" (a.limit.getD 50)] ∧
    (handleCallTool zep now "zep_get_graph_edges" a).2 =
      [RemoteCall.edgeGetByUserId "default_user" (a.limit.getD 50)] := by
  refine ⟨?_, ?_, ?_, ?_, ?_⟩
  · rw [handleCallTool_search, handleCallTool_search]
  · rw [handleCallTool_search]
  · rw [handleCallTool_store]
  · rw [handleCallTool_graphNodes]
  · rw [handleCallTool_graphEdges]

/-- Claim C10: the synthetic stored_at timestamp always overwrites a
caller-supplied stored_at metadata key, and every other caller key is
preserved unchanged in the appended assistant message metadata. -/
theorem stored_at_metadata_merge (zep : ZepClient) (now : String) (a : Args)
    (meta : List (String × String)) (hm : a.metadata = some meta) :
    (handleCallTool zep now "zep_store_memory" a).2 =
      [RemoteCall.userAdd "default_user" "default@example.com" "Claude" "Code",
       RemoteCall.threadCreate a.session_id "default_user",
       RemoteCall.addMessages a.session_id
         [{ role := some "user", content := some "Store this information",
            metadata := none },
          { role := some "assistant", content := a.content,
            metadata := some (spreadSet meta "stored_at" now) }]] ∧
    olookup (spreadSet meta "stored_at" now) "stored_at" = some now ∧
    ∀ k, k ≠ "stored_at" → olookup (spreadSet meta "stored_at" now) k = olookup meta k := by
  refine ⟨?_, olookup_spreadSet_self meta "stored_at" now,
    fun k hk => olookup_spreadSet_other meta "stored_at" now k hk⟩
  rw [handleCallTool_store]
  simp [hm, storeMessages]

/-- Witness for C10 at metadata already holding a stored_at key. -/
theorem stored_at_metadata_merge_witness :
    storeArgsMeta.metadata = some [("stored_at", "OLD"), ("tag", "x")] ∧
    ((handleCallTool mockOkClient "T1" "zep_store_memory" storeArgsMeta).2 =
      [RemoteCall.userAdd "default_user" "default@example.com" "Claude" "Code",
       RemoteCall.threadCreate storeArgsMeta.session_id "default_user",
       RemoteCall.addMessages storeArgsMeta.session_id
         [{ role := some "user", content := some "Store this information",
            metadata := none },
          { role := some "assistant", content := storeArgsMeta.content,
            metadata := some (spreadSet [("stored_at", "OLD"), ("tag", "x")]
              "stored_at" "T1") }]] ∧
     olookup (spreadSet [("stored_at", "OLD"), ("tag", "x")] "stored_at" "T1")
       "stored_at" = some "T1" ∧
     ∀ k, k ≠ "stored_at" →
       olookup (spreadSet [("stored_at", "OLD"), ("tag", "x")] "stored_at" "T1") k =
         olookup [("stored_at", "OLD"), ("tag", "x")] k) :=
  ⟨rfl, stored_at_metadata_merge mockOkClient "T1" storeArgsMeta
    [("stored_at", "OLD"), ("tag", "x")] rfl⟩

/-- Claim C1 counterexample: a store call with both required parameters
absent is not rejected before dispatch and does not produce an error
result: against a succeeding remote client it dispatches remote calls
and returns a success result. -/
theorem missing_required_param_counterexample :
    hasArg emptyArgs "session_id" = false ∧
    "session_id" ∈ requiredParams "zep_store_memory" ∧
    (handleCallTool mockOkClient "T0" "zep_store_memory" emptyArgs).1.isError = false ∧
    (handleCallTool mockOkClient "T0" "zep_store_memory" emptyArgs).2 ≠ [] := by
  refine ⟨rfl, by decide, rfl, by decide⟩

/-- Claim C1 as amended: the handler performs no required-parameter
validation; a call with a required parameter absent is dispatched to the
remote service with the argument undefined, the outcome is decided by
the remote call, and a remote fault is converted by the catch-all into
an error result, never an uncaught throw. -/
theorem missing_required_param_dispatches (zep : ZepClient) (now : String) (a : Args)
    (hs : a.session_id = none) (hn : a.node_uuid = none) :
    (handleCallTool zep now "zep_store_memory" a).2 =
      [RemoteCall.userAdd "default_user" "default@example.com" "Claude" "Code",
       RemoteCall.threadCreate none "default_user",
       RemoteCall.addMessages none (storeMessages a.content (a.metadata.getD []) now)] ∧
    (handleCallTool zep now "zep_store_memory" a).1 =
      (match zep.threadAddMessages none (storeMessages a.content (a.metadata.getD []) now) with
       | Except.ok _ => okText "✓ Stored in thread \"undefined\""
       | Except.error e => errResult e) ∧
    (handleCallTool zep now "zep_get_node_details" a).2.head? =
      some (RemoteCall.nodeGet none) := by
  refine ⟨?_, ?_, ?_⟩
  · rw [handleCallTool_store, hs]
  · rw [handleCallTool_store, hs]
    cases h : zep.threadAddMessages none (storeMessages a.content (a.metadata.getD []) now) <;>
      simp [h, jsStr]
  · rw [handleCallTool_nodeDetails, hn]
    cases h1 : zep.nodeGet none <;> simp [h1]
    cases h2 : zep.nodeGetEdges none <;> simp [h2]
    cases h3 : zep.nodeGetEpisodes none <;> simp [h3]

/-- Witness for the amended C1 at the empty argument object. -/
theorem missing_required_param_dispatches_witness :
    emptyArgs.session_id = none ∧ emptyArgs.node_uuid = none ∧
    ((handleCallTool mockOkClient "T0" "zep_store_memory" emptyArgs).2 =
      [RemoteCall.userAdd "default_user" "default@example.com" "Claude" "Code",
       RemoteCall.threadCreate none "default_user",
       RemoteCall.addMessages none (storeMessages none [] "T0")] ∧
     (handleCallTool mockOkClient "T0" "zep_store_memory" emptyArgs).1 =
      (match mockOkClient.threadAddMessages none (storeMessages none [] "T0") with
       | Except.ok _ => okText "✓ Stored in thread \"undefined\""
       | Except.error e => errResult e) ∧
     (handleCallTool mockOkClient "T0" "zep_get_node_details" emptyArgs).2.head? =
      some (RemoteCall.nodeGet none)) :=
  ⟨rfl, rfl, missing_required_param_dispatches mockOkClient "T0" emptyArgs rfl rfl⟩

/-- Claim C7: whenever the primary remote call of any tool handler
throws, the handler stops at the failing call (no later call of that
handler is dispatched) and returns a ToolCallResult with the error flag
set whose text holds the remote message, or the serialized error when no
message is available; in the multi-call zep_get_node_details handler
this holds at each of the three failure points. -/
theorem remote_failure_error_envelope (zep : ZepClient) (now : String) (a : Args)
    (e : ZepError) :
    (zep.threadAddMessages a.session_id
        (storeMessages a.content (a.metadata.getD []) now) = Except.error e →
      handleCallTool zep now "zep_store_memory" a =
        (errResult e,
         [RemoteCall.userAdd "default_user" "default@example.com" "Claude" "Code",
          RemoteCall.threadCreate a.session_id "default_user",
          RemoteCall.addMessages a.session_id
            (storeMessages a.content (a.metadata.getD []) now)])) ∧
    (zep.graphSearch "default_user" a.query (a.limit.getD 10) = Except.error e →
      handleCallTool zep now "zep_search_memory" a =
        (errResult e,
         [RemoteCall.graphSearch "default_user" a.query (a.limit.getD 10)])) ∧
    (zep.threadGet a.session_id (optsOf a) = Except.error e →
      handleCallTool zep now "zep_get_memory" a =
        (errResult e, [RemoteCall.threadGet a.session_id (optsOf a)])) ∧
    (zep.nodeGetByUserId "default_user" (a.limit.getD 50) = Except.error e →
      handleCallTool zep now "zep_get_graph_nodes" a =
        (errResult e, [RemoteCall.nodeGetByUserId "default_user" (a.limit.getD 50)])) ∧
    (zep.edgeGetByUserId "default_user" (a.limit.getD 50) = Except.error e →
      handleCallTool zep now "zep_get_graph_edges" a =
        (errResult e, [RemoteCall.edgeGetByUserId "default_user" (a.limit.getD 50)])) ∧
    (zep.threadGetUserContext a.session_id (a.mode.getD "summary") = Except.error e →
      handleCallTool zep now "zep_get_thread_context" a =
        (errResult e,
         [RemoteCall.getUserContext a.session_id (a.mode.getD "summary")])) ∧
    (zep.nodeGet a.node_uuid = Except.error e →
      handleCallTool zep now "zep_get_node_details" a =
        (errResult e, [RemoteCall.nodeGet a.node_uuid])) ∧
    (∀ node, zep.nodeGet a.node_uuid = Except.ok node →
      zep.nodeGetEdges a.node_uuid = Except.error e →
      handleCallTool zep now "zep_get_node_details" a =
        (errResult e,
         [RemoteCall.nodeGet a.node_uuid, RemoteCall.nodeGetEdges a.node_uuid])) ∧
    (∀ node edges, zep.nodeGet a.node_uuid = Except.ok node →
      zep.nodeGetEdges a.node_uuid = Except.ok edges →
      zep.nodeGetEpisodes a.node_uuid = Except.error e →
      handleCallTool zep now "zep_get_node_details" a =
        (errResult e,
         [RemoteCall.nodeGet a.node_uuid, RemoteCall.nodeGetEdges a.node_uuid,
          RemoteCall.nodeGetEpisodes a.node_uuid])) ∧
    (errResult e).isError = true ∧
    (∀ m, e.message = some m → m ≠ "" →
      (errResult e).content = [{ type := "text", text := "Error: " ++ m }]) ∧
    (e.message = none →
      (errResult e).content = [{ type := "text", text := "Error: " ++ e.serialized }]) := by
  refine ⟨?_, ?_, ?_, ?_, ?_, ?_, ?_, ?_, ?_, rfl, ?_, ?_⟩
  · intro h
    rw [handleCallTool_store]
    simp [h]
  · intro h
    rw [handleCallTool_search]
    simp [h]
  · intro h
    rw [handleCallTool_getMemory]
    simp [h]
  · intro h
    rw [handleCallTool_graphNodes]
    simp [h]
  · intro h
    rw [handleCallTool_graphEdges]
    simp [h]
  · intro h
    rw [handleCallTool_threadContext]
    simp [h]
  · intro h1
    rw [handleCallTool_nodeDetails]
    simp [h1]
  · intro node h1 h2
    rw [handleCallTool_nodeDetails]
    simp [h1, h2]
  · intro node edges h1 h2 h3
    rw [handleCallTool_nodeDetails]
    simp [h1, h2, h3]
  · intro m hm hne
    simp [errResult, errorText, hm, hne]
  · intro hm
    simp [errResult, errorText, hm]

/-- Witness for C7: every handler at a client whose operations all fail
with message boom, plus the middle failure point of the node-details
handler at a client whose edge fetch fails after a successful node
fetch. -/
theorem remote_failure_error_envelope_witness :
    mockAllFailClient.nodeGet none = Except.error sampleError ∧
    handleCallTool mockAllFailClient "T0" "zep_store_memory" emptyArgs =
      (errResult sampleError,
       [RemoteCall.userAdd "default_user" "default@example.com" "Claude" "Code",
        RemoteCall.threadCreate none "default_user",
        RemoteCall.addMessages none (storeMessages none [] "T0")]) ∧
    handleCallTool mockAllFailClient "T0" "zep_search_memory" emptyArgs =
      (errResult sampleError, [RemoteCall.graphSearch "default_user" none 10]) ∧
    handleCallTool mockAllFailClient "T0" "zep_get_memory" emptyArgs =
      (errResult sampleError,
       [RemoteCall.threadGet none { lastn := none, limit := none, cursor := none }]) ∧
    handleCallTool mockAllFailClient "T0" "zep_get_graph_nodes" emptyArgs =
      (errResult sampleError, [RemoteCall.nodeGetByUserId "default_user" 50]) ∧
    handleCallTool mockAllFailClient "T0" "zep_get_graph_edges" emptyArgs =
      (errResult sampleError, [RemoteCall.edgeGetByUserId "default_user" 50]) ∧
    handleCallTool mockAllFailClient "T0" "zep_get_thread_context" emptyArgs =
      (errResult sampleError, [RemoteCall.getUserContext none "summary"]) ∧
    handleCallTool mockAllFailClient "T0" "zep_get_node_details" emptyArgs =
      (errResult sampleError, [RemoteCall.nodeGet none]) ∧
    handleCallTool mockEdgesFailClient "T0" "zep_get_node_details" emptyArgs =
      (errResult sampleError,
       [RemoteCall.nodeGet none, RemoteCall.nodeGetEdges none]) :=
  have h := remote_failure_error_envelope mockAllFailClient "T0" emptyArgs sampleError
  ⟨rfl, h.1 rfl, h.2.1 rfl, h.2.2.1 rfl, h.2.2.2.1 rfl, h.2.2.2.2.1 rfl,
   h.2.2.2.2.2.1 rfl, h.2.2.2.2.2.2.1 rfl,
   (remote_failure_error_envelope mockEdgesFailClient "T0" emptyArgs
       sampleError).2.2.2.2.2.2.2.1
     { name := none, labels := none, uuid := none, summary := none } rfl rfl⟩

/-- Claim C2: in zep_get_memory, lastn takes precedence (only lastn is
sent to the remote retrieval) with the showing-last banner; otherwise a
present limit issues a limit/cursor request with the showing-up-to
banner (whose cursor suffix appears only for a truthy cursor); with
neither present, no banner is added and no lastn or limit is sent; the
two banners are distinct for every count. -/
theorem get_memory_pagination_modes (zep : ZepClient) (now : String) (a : Args)
    (resp : ThreadResponse) :
    (∀ n, a.lastn = some n →
      zep.threadGet a.session_id { lastn := some n, limit := none, cursor := none } =
        Except.ok resp →
      handleCallTool zep now "zep_get_memory" a =
        (okText ("Showing last " ++ toString n ++ " messages:\n\n" ++
           getMemoryBody a.role_filter resp),
         [RemoteCall.threadGet a.session_id
            { lastn := some n, limit := none, cursor := none }])) ∧
    (∀ l, a.lastn = none → a.limit = some l →
      zep.threadGet a.session_id { lastn := none, limit := some l, cursor := a.cursor } =
        Except.ok resp →
      handleCallTool zep now "zep_get_memory" a =
        (okText ("Showing up to " ++ toString l ++ " messages" ++ cursorSuffix a.cursor ++
           ":\n\n" ++ getMemoryBody a.role_filter resp),
         [RemoteCall.threadGet a.session_id
            { lastn := none, limit := some l, cursor := a.cursor }])) ∧
    (a.lastn = none → a.limit = none →
      zep.threadGet a.session_id { lastn := none, limit := none, cursor := a.cursor } =
        Except.ok resp →
      handleCallTool zep now "zep_get_memory" a =
        (okText (getMemoryBody a.role_filter resp),
         [RemoteCall.threadGet a.session_id
            { lastn := none, limit := none, cursor := a.cursor }])) ∧
    (∀ n : Nat, ("Showing last " ++ toString n ++ " messages:\n\n" : String) ≠
       "Showing up to " ++ toString n ++ " messages:\n\n") := by
  refine ⟨?_, ?_, ?_, showingBanners_ne⟩
  · intro n hn hok
    have ho : optsOf a = { lastn := some n, limit := none, cursor := none } := by
      simp [optsOf, hn]
    rw [handleCallTool_getMemory, ho, hok]
    simp [bannerOf, hn]
  · intro l hn hl hok
    have ho : optsOf a = { lastn := none, limit := some l, cursor := a.cursor } := by
      simp [optsOf, hn, hl]
    rw [handleCallTool_getMemory, ho, hok]
    simp [bannerOf, hn, hl]
  · intro hn hl hok
    have ho : optsOf a = { lastn := none, limit := none, cursor := a.cursor } := by
      simp [optsOf, hn, hl]
    rw [handleCallTool_getMemory, ho, hok]
    simp [bannerOf, hn, hl]

/-- Witness for C2: the two banner modes at concrete calls, including
the limit mode at cursor zero. -/
theorem get_memory_pagination_modes_witness :
    lastnArgs.lastn = some 2 ∧ limitArgs.lastn = none ∧ limitArgs.limit = some 2 ∧
    handleCallTool mockOkClient "T0" "zep_get_memory" lastnArgs =
      (okText ("Showing last " ++ toString 2 ++ " messages:\n\n" ++
         getMemoryBody lastnArgs.role_filter { messages := some [] }),
       [RemoteCall.threadGet lastnArgs.session_id
          { lastn := some 2, limit := none, cursor := none }]) ∧
    handleCallTool mockOkClient "T0" "zep_get_memory" limitArgs =
      (okText ("Showing up to " ++ toString 2 ++ " messages" ++
         cursorSuffix limitArgs.cursor ++ ":\n\n" ++
         getMemoryBody limitArgs.role_filter { messages := some [] }),
       [RemoteCall.threadGet limitArgs.session_id
          { lastn := none, limit := some 2, cursor := limitArgs.cursor }]) :=
  ⟨rfl, rfl, rfl,
   (get_memory_pagination_modes mockOkClient "T0" lastnArgs
     { messages := some [] }).1 2 rfl rfl,
   (get_memory_pagination_modes mockOkClient "T0" limitArgs
     { messages := some [] }).2.1 2 rfl rfl rfl⟩

/-- Claim C3: a successful store call dispatches the identity upsert and
the thread creation before the append, appends exactly the two expected
messages (the synthetic user priming message, then the assistant message
carrying the content with merged metadata), and returns a single text
item containing the session identifier. -/
theorem store_memory_call_sequence (zep : ZepClient) (now s c : String) (a : Args)
    (hs : a.session_id = some s) (hc : a.content = some c)
    (hok : zep.threadAddMessages (some s)
        (storeMessages (some c) (a.metadata.getD []) now) = Except.ok ()) :
    handleCallTool zep now "zep_store_memory" a =
      (okText ("✓ Stored in thread \"" ++ s ++ "\""),
       [RemoteCall.userAdd "default_user" "default@example.com" "Claude" "Code",
        RemoteCall.threadCreate (some s) "default_user",
        RemoteCall.addMessages (some s)
          (storeMessages (some c) (a.metadata.getD []) now)]) ∧
    storeMessages (some c) (a.metadata.getD []) now =
      [{ role := some "user", content := some "Store this information", metadata := none },
       { role := some "assistant", content := some c,
         metadata := some (spreadSet (a.metadata.getD []) "stored_at" now) }] ∧
    (storeMessages (some c) (a.metadata.getD []) now).length = 2 ∧
    ContainsStr ("✓ Stored in thread \"" ++ s ++ "\"") s := by
  refine ⟨?_, rfl, rfl, ⟨"✓ Stored in thread \"", "\"", rfl⟩⟩
  rw [handleCallTool_store, hs, hc, hok]
  rfl

/-- Witness for C3 at session global and content hello. -/
theorem store_memory_call_sequence_witness :
    storeArgs.session_id = some "global" ∧ storeArgs.content = some "hello" ∧
    (handleCallTool mockOkClient "T0" "zep_store_memory" storeArgs =
       (okText ("✓ Stored in thread \"" ++ "global" ++ "\""),
        [RemoteCall.userAdd "default_user" "default@example.com" "Claude" "Code",
         RemoteCall.threadCreate (some "global") "default_user",
         RemoteCall.addMessages (some "global")
           (storeMessages (some "hello") (storeArgs.metadata.getD []) "T0")]) ∧
     storeMessages (some "hello") (storeArgs.metadata.getD []) "T0" =
       [{ role := some "user", content := some "Store this information", metadata := none },
        { role := some "assistant", content := some "hello",
          metadata := some (spreadSet (storeArgs.metadata.getD []) "stored_at" "T0") }] ∧
     (storeMessages (some "hello") (storeArgs.metadata.getD []) "T0").length = 2 ∧
     ContainsStr ("✓ Stored in thread \"" ++ "global" ++ "\"") "global") :=
  ⟨rfl, rfl,
   store_memory_call_sequence mockOkClient "T0" "global" "hello" storeArgs rfl rfl rfl⟩

/-- Claim C5: the node-details output shows at most the first five
episodes of the response, in response order, and each displayed excerpt
is a prefix of at most 100 characters of the source excerpt (or the
placeholder when the excerpt is missing or empty). -/
theorem node_details_truncation (zep : ZepClient) (now : String) (a : Args)
    (node : GraphNode) (edges : List GraphEdge) (eps : EpisodesResponse)
    (l : List Episode)
    (h1 : zep.nodeGet a.node_uuid = Except.ok node)
    (h2 : zep.nodeGetEdges a.node_uuid = Except.ok edges)
    (h3 : zep.nodeGetEpisodes a.node_uuid = Except.ok eps)
    (hl : eps.episodes = some l) (hlen : 0 < l.length) :
    handleCallTool zep now "zep_get_node_details" a =
      (okText (nodeDetailsText node edges eps),
       [RemoteCall.nodeGet a.node_uuid, RemoteCall.nodeGetEdges a.node_uuid,
        RemoteCall.nodeGetEpisodes a.node_uuid]) ∧
    episodesSection eps =
      "## Mentioned In (" ++ toString l.length ++ " episodes)\n\n" ++
        concatAll (numbered
          (fun i ep => toString (i + 1) ++ ". " ++ excerptText ep ++ "...\n")
          (l.take 5)) ∧
    (l.take 5).length ≤ 5 ∧
    (∃ rest, l = l.take 5 ++ rest) ∧
    (∀ ep : Episode, (excerptText ep).length ≤ 100) ∧
    (∀ s : String, excerptText { content := some s } = String.mk (s.data.take 100) ∨
       excerptText { content := some s } = "No content") := by
  refine ⟨?_, ?_, ?_, ⟨l.drop 5, (List.take_append_drop 5 l).symm⟩, ?_, ?_⟩
  · rw [handleCallTool_nodeDetails]
    simp [h1, h2, h3]
  · simp [episodesSection, hl, hlen]
  · simp [List.length_take]
  · intro ep
    cases hc : ep.content with
    | none =>
        simp only [excerptText, hc]
        decide
    | some s =>
        simp only [excerptText, hc, jsOrS]
        split
        · decide
        · have hle : (s.data.take 100).length ≤ 100 := by
            simp [List.length_take]
          exact hle
  · intro s
    by_cases he : String.mk (s.data.take 100) = ""
    · right
      simp [excerptText, jsOrS, he]
    · left
      simp [excerptText, jsOrS, he]

/-- Witness for C5 at a client returning seven episodes, the first one
150 characters long. -/
theorem node_details_truncation_witness :
    mockEpisodesClient.nodeGetEpisodes none =
      Except.ok { episodes := some longEpisodes } ∧
    0 < longEpisodes.length ∧
    (handleCallTool mockEpisodesClient "T0" "zep_get_node_details" emptyArgs).1 =
      okText (nodeDetailsText sampleNode [] { episodes := some longEpisodes }) ∧
    episodesSection { episodes := some longEpisodes } =
      "## Mentioned In (" ++ toString longEpisodes.length ++ " episodes)\n\n" ++
        concatAll (numbered
          (fun i ep => toString (i + 1) ++ ". " ++ excerptText ep ++ "...\n")
          (longEpisodes.take 5)) ∧
    (longEpisodes.take 5).length ≤ 5 :=
  have h := node_details_truncation mockEpisodesClient "T0" emptyArgs sampleNode []
    { episodes := some longEpisodes } longEpisodes rfl rfl rfl rfl (by decide)
  ⟨rfl, by decide, by rw [h.1], h.2.1, h.2.2.1⟩

/-- Claim C6: the role filter of zep_get_memory is applied client-side
after retrieval (the remote request does not depend on it), the output
lists exactly the messages whose role equals the filter, in original
relative order and numbered from 1, and an empty filtered set yields the
no-memories sentinel after the banner, never an empty string. -/
theorem role_filter_client_side (zep : ZepClient) (now : String) (a : Args) (r : String)
    (resp : ThreadResponse) (hr : a.role_filter = some r) (hrne : r ≠ "")
    (hok : zep.threadGet a.session_id (optsOf a) = Except.ok resp) :
    ((handleCallTool zep now "zep_get_memory" a).2 =
      (handleCallTool zep now "zep_get_memory" { a with role_filter := none }).2) ∧
    (handleCallTool zep now "zep_get_memory" a).1 =
      okText (bannerOf a ++ jsOrS (joinSep "\n\n" (numbered messageLine
        ((resp.messages.getD []).filter (fun m => m.role == some r))))
        "No memories found in this thread") ∧
    (∀ m ∈ (resp.messages.getD []).filter (fun m => m.role == some r),
       m.role = some r) ∧
    (∀ m ∈ resp.messages.getD [], m.role = some r →
       m ∈ (resp.messages.getD []).filter (fun m => m.role == some r)) ∧
    List.Sublist ((resp.messages.getD []).filter (fun m => m.role == some r))
      (resp.messages.getD []) ∧
    ((resp.messages.getD []).filter (fun m => m.role == some r) = [] →
      (handleCallTool zep now "zep_get_memory" a).1 =
        okText (bannerOf a ++ "No memories found in this thread")) := by
  refine ⟨?_, ?_, ?_, ?_, List.filter_sublist _, ?_⟩
  · rw [handleCallTool_getMemory, handleCallTool_getMemory]
    rfl
  · rw [handleCallTool_getMemory, hok]
    simp [getMemoryBody, applyRoleFilter, jsTruthy, hr, hrne]
  · intro m hm
    simpa using List.of_mem_filter hm
  · intro m hm hrole
    rw [List.mem_filter]
    exact ⟨hm, by simp [hrole]⟩
  · intro hemp
    rw [handleCallTool_getMemory, hok]
    simp [getMemoryBody, applyRoleFilter, jsTruthy, hr, hrne, hemp, numbered, joinSep,
      jsOrS]

/-- Witness for C6 at the mixed-role message list with the assistant
filter. -/
theorem role_filter_client_side_witness :
    roleArgs.role_filter = some "assistant" ∧
    mockMixedClient.threadGet roleArgs.session_id (optsOf roleArgs) =
      Except.ok { messages := some mixedMessages } ∧
    (handleCallTool mockMixedClient "T0" "zep_get_memory" roleArgs).1 =
      okText (bannerOf roleArgs ++ jsOrS (joinSep "\n\n" (numbered messageLine
        (mixedMessages.filter (fun m => m.role == some "assistant"))))
        "No memories found in this thread") ∧
    (∀ m ∈ mixedMessages.filter (fun m => m.role == some "assistant"),
       m.role = some "assistant") :=
  have h := role_filter_client_side mockMixedClient "T0" roleArgs "assistant"
    { messages := some mixedMessages } rfl (by decide) rfl
  ⟨rfl, rfl, h.2.1, h.2.2.1⟩


/-- Claim C4: storing content on a session appends the two store
messages, and a get on the same session against a stub client that
returns exactly those appended messages yields a result text containing
the stored content. -/
theorem store_get_roundtrip (zepStore zepGet : ZepClient) (now now2 s c : String)
    (aStore aGet : Args) (meta : List (String × String))
    (hss : aStore.session_id = some s) (hsc : aStore.content = some c)
    (hsm : aStore.metadata = some meta)
    (hgs : aGet.session_id = some s) (hgl : aGet.lastn = none) (hgl2 : aGet.limit = none)
    (hgc : aGet.cursor = none) (hgr : aGet.role_filter = none)
    (hstub : zepGet.threadGet (some s) { lastn := none, limit := none, cursor := none } =
       Except.ok { messages := some (storeMessages (some c) meta now) }) :
    ((handleCallTool zepStore now "zep_store_memory" aStore).2.getLast? =
       some (RemoteCall.addMessages (some s) (storeMessages (some c) meta now))) ∧
    ContainsStr
      (((handleCallTool zepGet now2 "zep_get_memory" aGet).1.content.headD
          { type := "text", text := "" }).text) c := by
  constructor
  · rw [handleCallTool_store, hss, hsc, hsm]
    rfl
  · have ho : optsOf aGet = { lastn := none, limit := none, cursor := none } := by
      simp [optsOf, hgl, hgl2, hgc]
    have hb : bannerOf aGet = "" := by
      simp [bannerOf, hgl, hgl2]
    have hm1 : messageLine 0
        { role := some "user", content := some "Store this information",
          metadata := none } = "1. [user] Store this information" := rfl
    have hm2 : messageLine 1
        { role := some "assistant", content := some c,
          metadata := some (spreadSet meta "stored_at" now) } =
        ("2. [assistant] " ++ c) ++
          (if (spreadSet meta "stored_at" now).length > 0 then
            "\n   " ++ jsonStringifyObj (spreadSet meta "stored_at" now)
          else "") := rfl
    have hgm : getMemoryBody none
        { messages := some (storeMessages (some c) meta now) } =
        jsOrS (messageLine 0
            { role := some "user", content := some "Store this information",
              metadata := none } ++ "\n\n" ++
          messageLine 1
            { role := some "assistant", content := some c,
              metadata := some (spreadSet meta "stored_at" now) })
          "No memories found in this thread" := rfl
    have hne : (("1. [user] Store this information" ++ "\n\n") ++
        (("2. [assistant] " ++ c) ++
          (if (spreadSet meta "stored_at" now).length > 0 then
            "\n   " ++ jsonStringifyObj (spreadSet meta "stored_at" now)
          else ""))) ≠ "" := by
      intro he
      have hlen := congrArg String.length he
      rw [String.length_append, String.length_append] at hlen
      have e1 : ("1. [user] Store this information" : String).length = 32 := rfl
      have e2 : ("\n\n" : String).length = 2 := rfl
      have e3 : ("" : String).length = 0 := rfl
      rw [e1, e2, e3] at hlen
      omega
    rw [handleCallTool_getMemory, ho, hgs, hstub]
    show ContainsStr (bannerOf aGet ++ getMemoryBody aGet.role_filter
      { messages := some (storeMessages (some c) meta now) }) c
    rw [hb, hgr, hgm, hm1, hm2]
    simp only [jsOrS]
    rw [if_neg hne]
    have hemp : ∀ t : String, "" ++ t = t := fun t => rfl
    rw [hemp]
    refine ⟨("1. [user] Store this information" ++ "\n\n") ++ "2. [assistant] ",
      (if (spreadSet meta "stored_at" now).length > 0 then
        "\n   " ++ jsonStringifyObj (spreadSet meta "stored_at" now)
      else ""), ?_⟩
    rw [← String.append_assoc, ← String.append_assoc]

/-- Witness for C4 at session global and content hello through the stub
round-trip client. -/
theorem store_get_roundtrip_witness :
    roundtripArgs.session_id = some "global" ∧ roundtripArgs.metadata = some [] ∧
    mockRoundtripClient.threadGet (some "global")
      { lastn := none, limit := none, cursor := none } =
      Except.ok { messages := some (storeMessages (some "hello") [] "T0") } ∧
    ((handleCallTool mockOkClient "T0" "zep_store_memory" roundtripArgs).2.getLast? =
       some (RemoteCall.addMessages (some "global")
         (storeMessages (some "hello") [] "T0"))) ∧
    ContainsStr
      (((handleCallTool mockRoundtripClient "T1" "zep_get_memory" getArgs).1.content.headD
          { type := "text", text := "" }).text) "hello" :=
  have h := store_get_roundtrip mockOkClient mockRoundtripClient "T0" "T1" "global"
    "hello" roundtripArgs getArgs [] rfl rfl rfl rfl rfl rfl rfl rfl rfl
  ⟨rfl, rfl, rfl, h.1, h.2⟩
